import Mathlib

/-!
Verification development for the AI content authentication system.

Part 1 embeds the ledger-side record store, the Solidity contract
`ContentVerification` (blockchain/contracts/ContentVerification.sol):
bytes32 digests and addresses are embedded as natural numbers (the zero
value is 0), `uint8`/`uint256` fields as naturals, the two storage
mappings as total functions with the Solidity mapping default, and a
reverting call as an `Except` error together with a step function that
rolls the state back.  The `RecordStored` event is not modelled.

Part 2 embeds the client, the `BlockchainService` class
(src/services/blockchainService.js) and the confidence scaling of
`UploadForm.handleTextSubmit` (src/components/UploadForm.jsx): the
external signing provider and the bound contract are oracles supplied as
data, JavaScript numbers are embedded as rationals, `Math.round` as
`jsRound`, and every interaction with the bound contract or the provider
is recorded in an explicit call log so that "no external call happens"
is a statement about that log.
-/

namespace ContentVerification

/-- A stored verification record.  `existsFlag` embeds the Solidity field
`exists` (a reserved word in Lean).  Field order and meaning follow the
`VerificationRecord` struct of the contract. -/
structure VerificationRecord where
  contentHash : Nat
  isAuthentic : Bool
  confidence : Nat
  timestamp : Nat
  verifier : Nat
  existsFlag : Bool
  deriving DecidableEq, Repr

/-- The Solidity mapping default: every field zeroed, `exists` false. -/
def defaultRecord : VerificationRecord :=
  ⟨0, false, 0, 0, 0, false⟩

/-- Contract storage: the `records` mapping (digest to record) and the
`userRecords` mapping (address to list of digests). -/
structure CVState where
  records : Nat → VerificationRecord
  userRecords : Nat → List Nat

/-- Storage of a freshly deployed contract: both mappings empty. -/
def initState : CVState :=
  ⟨fun _ => defaultRecord, fun _ => []⟩

/-- The three `require` failures of `storeRecord`, in source order:
"Content hash cannot be empty", "Confidence must be between 0 and 100",
"Record already exists for this content". -/
inductive StoreError where
  | emptyContentHash
  | confidenceOutOfRange
  | recordAlreadyExists
  deriving DecidableEq, Repr

/-- Embeds `storeRecord(_contentHash, _isAuthentic, _confidence)`.
`sender` is `msg.sender`, `time` is `block.timestamp`.  The three
`require` checks run in source order; on success the record is written
and the digest appended to the caller's index. -/
def storeRecord (s : CVState) (sender time digest : Nat) (isAuth : Bool)
    (conf : Nat) : Except StoreError CVState :=
  if digest = 0 then .error .emptyContentHash
  else if 100 < conf then .error .confidenceOutOfRange
  else if (s.records digest).existsFlag then .error .recordAlreadyExists
  else .ok
    ⟨fun d => if d = digest then ⟨digest, isAuth, conf, time, sender, true⟩
              else s.records d,
     fun u => if u = sender then s.userRecords u ++ [digest]
              else s.userRecords u⟩

/-- The storage after a `storeRecord` call: on revert the EVM rolls the
state back, so a failing call leaves the storage untouched. -/
def stepStore (s : CVState) (sender time digest : Nat) (isAuth : Bool)
    (conf : Nat) : CVState :=
  match storeRecord s sender time digest isAuth conf with
  | .ok s2 => s2
  | .error _ => s

/-- Embeds the view function `getRecord`: a plain read of the mapping,
returning the default record when nothing was stored. -/
def getRecord (s : CVState) (digest : Nat) : VerificationRecord :=
  s.records digest

/-- Embeds the view function `getUserRecords`. -/
def getUserRecords (s : CVState) (user : Nat) : List Nat :=
  s.userRecords user

/-- Embeds the view function `getUserRecordCount`. -/
def getUserRecordCount (s : CVState) (user : Nat) : Nat :=
  (s.userRecords user).length

/-- Embeds the view function `recordExists`. -/
def recordExists (s : CVState) (digest : Nat) : Bool :=
  (s.records digest).existsFlag

/-- The externally callable operations of the contract.  The four view
functions are `view` (the compiler forbids state writes), so only
`store` can touch storage. -/
inductive Op where
  | store (sender time digest : Nat) (isAuth : Bool) (conf : Nat)
  | readRecord (digest : Nat)
  | readUserRecords (user : Nat)
  | readUserRecordCount (user : Nat)
  | readRecordExists (digest : Nat)
  deriving DecidableEq, Repr

/-- Effect of one call on storage. -/
def applyOp (s : CVState) : Op → CVState
  | .store sender t d a c => stepStore s sender t d a c
  | .readRecord _ => s
  | .readUserRecords _ => s
  | .readUserRecordCount _ => s
  | .readRecordExists _ => s

/-- Effect of a sequence of calls (the ledger serializes execution). -/
def exec (s : CVState) : List Op → CVState
  | [] => s
  | op :: rest => exec (applyOp s op) rest

/-- The (sender, digest) pair recorded when a call is a successful
`storeRecord`, empty otherwise. -/
def opSuccess (s : CVState) : Op → List (Nat × Nat)
  | .store sender t d a c =>
    match storeRecord s sender t d a c with
    | .ok _ => [(sender, d)]
    | .error _ => []
  | _ => []

/-- The (sender, digest) pairs of the successful `storeRecord` calls of a
trace, in call order. -/
def successes (s : CVState) : List Op → List (Nat × Nat)
  | [] => []
  | op :: rest => opSuccess s op ++ successes (applyOp s op) rest

/-- The digests a given user successfully stored, extracted from a
success list, in order. -/
def successDigestsOf (user : Nat) (l : List (Nat × Nat)) : List Nat :=
  l.filterMap fun p => if p.1 = user then some p.2 else none

end ContentVerification

namespace BlockchainService

/-- Embeds the JavaScript `Math.round`: the nearest integer, ties rounded
up, as applied to the confidence argument in `storeVerificationRecord`
and `estimateGasCost`. -/
def jsRound (q : ℚ) : ℤ := ⌊q + 1/2⌋

/-- Embeds the hash normalization both methods perform: the digest string
is passed through, with a 0x prefix prepended when it is missing
(`contentHash.startsWith("0x") ? contentHash : "0x" + contentHash`). -/
def normalizeHash (h : String) : String :=
  if "0x".data.isPrefixOf h.data then h else "0x" ++ h

/-- A network description, as kept in `currentNetwork` (the JS object
holds the chain id and a name). -/
structure Network where
  chainId : Nat
  name : String
  deriving DecidableEq, Repr

/-- A transaction receipt as returned by `tx.wait()`.  `sender` embeds the
JS field `from` (a reserved word in Lean). -/
structure TxReceipt where
  hash : String
  blockNumber : Nat
  gasUsed : Nat
  sender : String
  deriving DecidableEq, Repr

/-- A decoded record object on the client side, the shape built by
`getVerificationRecord` and returned by the mock contract's `getRecord`.
`existsFlag` embeds the JS field `exists`. -/
structure JSRecord where
  contentHash : String
  isAuthentic : Bool
  confidence : Int
  timestamp : Int
  verifier : String
  existsFlag : Bool
  deriving DecidableEq, Repr

/-- One external interaction through the bound contract or the provider.
The client methods are verified against the log of these calls. -/
inductive ExtCall where
  | contractStoreRecord (hash : String) (isAuthentic : Bool) (confidence : Int)
  | contractEstimateGas (hash : String) (isAuthentic : Bool) (confidence : Int)
  | contractGetRecord (hash : String)
  | providerGetFeeData
  deriving DecidableEq, Repr

/-- Oracle describing how the bound contract answers each call the client
makes; a live binding forwards to the ledger, the mock binding is the
`mockContract` below. -/
structure ContractOracle where
  storeRecordResp : String → Bool → Int → Except String TxReceipt
  estimateGasResp : String → Bool → Int → Except String Nat
  getRecordResp : String → JSRecord

/-- Oracle for the provider: `getFeeData().gasPrice`. -/
structure ProviderOracle where
  gasPrice : Nat
  deriving DecidableEq, Repr

/-- The instance fields of the `BlockchainService` class that the claims
concern: provider, signer, contract, current account, current network,
connection flag, mock flag. -/
structure BCState where
  provider : Option ProviderOracle
  signerPresent : Bool
  contract : Option ContractOracle
  currentAccount : Option String
  currentNetwork : Option Network
  isConnected : Bool
  mockMode : Bool

/-- The state the constructor builds: everything null, nothing connected. -/
def initBCState : BCState :=
  ⟨none, false, none, none, none, false, false⟩

/-- The external signing provider (`window.ethereum`), when present:
the result of `eth_requestAccounts` (null or a list of accounts), the
chain id and name reported by `getNetwork()`, and the gas price its
provider reports. -/
structure EthereumProvider where
  accountsResult : Option (List String)
  chainId : Nat
  networkName : String
  gasPrice : Nat

/-- The browser environment: `window.ethereum` is present or not. -/
structure BrowserEnv where
  ethereum : Option EthereumProvider

/-- The two failures of `connectWallet`, in source order: "MetaMask is
not installed..." and "No accounts found. Please unlock MetaMask." -/
inductive ConnectError where
  | metamaskNotInstalled
  | noAccountsFound
  deriving DecidableEq, Repr

/-- Embeds `connectWallet()`: fails when `window.ethereum` is absent;
fails when `eth_requestAccounts` yields null or an empty list; otherwise
sets up provider and signer, records the first account and the network,
and sets `isConnected`. -/
def connectWallet (env : BrowserEnv) (s : BCState) : Except ConnectError BCState :=
  match env.ethereum with
  | none => .error .metamaskNotInstalled
  | some eth =>
    match eth.accountsResult with
    | none => .error .noAccountsFound
    | some [] => .error .noAccountsFound
    | some (a :: _) =>
      .ok { s with
        provider := some ⟨eth.gasPrice⟩,
        signerPresent := true,
        currentAccount := some a,
        currentNetwork := some ⟨eth.chainId, eth.networkName⟩,
        isConnected := true }

/-- Embeds `disconnectWallet()`: clears provider, signer, contract,
account, network and the connection flag (the mock flag is untouched). -/
def disconnectWallet (s : BCState) : BCState :=
  { provider := none, signerPresent := false, contract := none,
    currentAccount := none, currentNetwork := none, isConnected := false,
    mockMode := s.mockMode }

/-- The client-side failures the embedded methods surface:
"Wallet not connected...", "Contract not initialized...", a null
provider dereference, and an error thrown by the external call. -/
inductive BCError where
  | walletNotConnected
  | contractNotInitialized
  | providerMissing
  | txFailed (msg : String)
  deriving DecidableEq, Repr

/-- Embeds `initializeContract(contractABI, contractAddress)`: requires a
signer, then binds the contract. -/
def initContract (s : BCState) (oracle : ContractOracle) : Except BCError BCState :=
  if s.signerPresent then .ok { s with contract := some oracle }
  else .error .walletNotConnected

/-- The result object of a successful `storeVerificationRecord`. -/
structure TxResult where
  transactionHash : String
  blockNumber : Nat
  gasUsed : Nat
  sender : String
  contentHash : String
  deriving DecidableEq, Repr

/-- Embeds `storeVerificationRecord(contentHash, isAuthentic, confidence)`:
requires a bound contract (else it throws before any external call),
normalizes the hash, and sends `storeRecord` with the rounded confidence;
the second component is the log of external calls made. -/
def storeVerificationRecord (s : BCState) (contentHash : String)
    (isAuthentic : Bool) (confidence : ℚ) :
    Except BCError TxResult × List ExtCall :=
  match s.contract with
  | none => (.error .contractNotInitialized, [])
  | some k =>
    match k.storeRecordResp (normalizeHash contentHash) isAuthentic
        (jsRound confidence) with
    | .error msg =>
      (.error (.txFailed msg),
       [.contractStoreRecord (normalizeHash contentHash) isAuthentic
          (jsRound confidence)])
    | .ok r =>
      (.ok ⟨r.hash, r.blockNumber, r.gasUsed, r.sender,
            normalizeHash contentHash⟩,
       [.contractStoreRecord (normalizeHash contentHash) isAuthentic
          (jsRound confidence)])

/-- The result object of `estimateGasCost`. -/
structure GasEstimate where
  gasLimit : Nat
  gasPrice : Nat
  totalCostWei : Nat
  deriving DecidableEq, Repr

/-- Embeds `estimateGasCost(contentHash, isAuthentic, confidence)`:
requires a bound contract (else it throws before any external call),
normalizes the hash, asks the contract for a gas estimate with the
rounded confidence, then asks the provider for the gas price. -/
def estimateGasCost (s : BCState) (contentHash : String)
    (isAuthentic : Bool) (confidence : ℚ) :
    Except BCError GasEstimate × List ExtCall :=
  match s.contract with
  | none => (.error .contractNotInitialized, [])
  | some k =>
    match k.estimateGasResp (normalizeHash contentHash) isAuthentic
        (jsRound confidence) with
    | .error msg =>
      (.error (.txFailed msg),
       [.contractEstimateGas (normalizeHash contentHash) isAuthentic
          (jsRound confidence)])
    | .ok gas =>
      match s.provider with
      | none =>
        (.error .providerMissing,
         [.contractEstimateGas (normalizeHash contentHash) isAuthentic
            (jsRound confidence)])
      | some p =>
        (.ok ⟨gas, p.gasPrice, gas * p.gasPrice⟩,
         [.contractEstimateGas (normalizeHash contentHash) isAuthentic
            (jsRound confidence), .providerGetFeeData])

/-- Embeds `getVerificationRecord(contentHash)`: requires a bound
contract, normalizes the hash, calls the contract's `getRecord`, checks
the `exists` field and returns null (`none`) when it is false. -/
def getVerificationRecord (s : BCState) (contentHash : String) :
    Except BCError (Option JSRecord) × List ExtCall :=
  match s.contract with
  | none => (.error .contractNotInitialized, [])
  | some k =>
    if (k.getRecordResp (normalizeHash contentHash)).existsFlag then
      (.ok (some { k.getRecordResp (normalizeHash contentHash) with
                     existsFlag := true }),
       [.contractGetRecord (normalizeHash contentHash)])
    else
      (.ok none, [.contractGetRecord (normalizeHash contentHash)])

/-- The all-zero bytes32 digest, as the mock contract returns it. -/
def zeroHash32 : String :=
  "0x0000000000000000000000000000000000000000000000000000000000000000"

/-- The zero address, as the mock contract returns it. -/
def zeroAddress : String := "0x0000000000000000000000000000000000000000"

/-- The constant record the mock contract's `getRecord` returns: default
fields, `exists` false. -/
def mockZeroRecord : JSRecord :=
  ⟨zeroHash32, false, 0, 0, zeroAddress, false⟩

/-- The receipt the mock contract's `storeRecord` resolves with.  In the
JS code the hash and block number come from `Math.random()`; the values
are irrelevant to the claims and fixed here. -/
def mockReceipt (account : String) : TxReceipt :=
  ⟨"0xmocktransaction", 1500000, 21000, account⟩

/-- The mock contract installed by `enableMockMode`: `storeRecord`
resolves with a fabricated receipt, `estimateGas` answers 21000, and
`getRecord` ignores its argument — and any seeded records — always
answering the default record with `exists` false. -/
def mockContract (account : String) : ContractOracle :=
  { storeRecordResp := fun _ _ _ => .ok (mockReceipt account),
    estimateGasResp := fun _ _ _ => .ok 21000,
    getRecordResp := fun _ => mockZeroRecord }

/-- The options object of `enableMockMode`: an optional account, an
optional network, and seeded records.  The seeded records end up in
`mockData.records`, which no code path ever reads. -/
structure MockOptions where
  account : Option String
  network : Option Network
  seededRecords : List (String × JSRecord)

/-- The default mock account of `enableMockMode`. -/
def defaultMockAccount : String := "0x742d35Cc6634C0532925a3b844Bc9e7595f0bEb"

/-- The default mock network of `enableMockMode` (sepolia). -/
def defaultMockNetwork : Network := ⟨11155111, "sepolia"⟩

/-- Embeds `enableMockMode(options)`: marks mock mode, simulates a
connection with the (defaulted) account and network, installs the mock
contract and a mock provider with a 20 gwei gas price.  The seeded
records of the options are stored but never consulted. -/
def enableMockMode (s : BCState) (opts : MockOptions) : BCState :=
  { s with
    mockMode := true,
    isConnected := true,
    currentAccount := some (opts.account.getD defaultMockAccount),
    currentNetwork := some (opts.network.getD defaultMockNetwork),
    contract := some (mockContract (opts.account.getD defaultMockAccount)),
    provider := some ⟨20000000000⟩ }

/-- Embeds `disableMockMode()`: clears the mock flag and the simulated
connection. -/
def disableMockMode (s : BCState) : BCState :=
  { s with
    mockMode := false,
    isConnected := false,
    currentAccount := none,
    currentNetwork := none }

end BlockchainService

namespace UploadForm

/-- Embeds the confidence scaling of `UploadForm.handleTextSubmit`: the
classification oracle's 0..1 confidence is multiplied by 100 before it
is handed to `estimateGasCost` and `storeVerificationRecord`. -/
def uiConfidencePercent (oracleConfidence : ℚ) : ℚ := oracleConfidence * 100

end UploadForm

/-- A live-binding oracle used as a concrete test fixture: the contract
accepts every store and estimate. -/
def sampleOracle : BlockchainService.ContractOracle :=
  { storeRecordResp := fun _ _ _ =>
      .ok ⟨"0xsampletransaction", 123, 50000, "0xsamplesender"⟩,
    estimateGasResp := fun _ _ _ => .ok 50000,
    getRecordResp := fun _ => BlockchainService.mockZeroRecord }

/-- A connected client state with `sampleOracle` bound, used as a
concrete test fixture. -/
def boundState : BlockchainService.BCState :=
  { provider := some ⟨30⟩, signerPresent := true,
    contract := some sampleOracle, currentAccount := some "0xsamplesender",
    currentNetwork := some ⟨11155111, "sepolia"⟩, isConnected := true,
    mockMode := false }

/-- A digest used to test mock seeding. -/
def seededDigest : String := "0xabc123"

/-- A record seeded for `seededDigest`, claiming existence. -/
def seededRecord : BlockchainService.JSRecord :=
  ⟨seededDigest, true, 95, 1700000000, "0xseeder", true⟩

/-- Mock options that explicitly seed `seededRecord` for `seededDigest`. -/
def seededOptions : BlockchainService.MockOptions :=
  ⟨none, none, [(seededDigest, seededRecord)]⟩

namespace ContentVerification

theorem storeRecord_ok_of (s : CVState) (sender t d : Nat) (a : Bool) (c : Nat)
    (hd : d ≠ 0) (hc : c ≤ 100) (hex : (s.records d).existsFlag = false) :
    storeRecord s sender t d a c = .ok
      ⟨fun d' => if d' = d then ⟨d, a, c, t, sender, true⟩ else s.records d',
       fun u => if u = sender then s.userRecords u ++ [d] else s.userRecords u⟩ := by
  unfold storeRecord
  rw [if_neg hd, if_neg (by omega), if_neg (by simp [hex])]

theorem storeRecord_err_empty (s : CVState) (sender t : Nat) (a : Bool) (c : Nat) :
    storeRecord s sender t 0 a c = .error .emptyContentHash := by
  unfold storeRecord
  rw [if_pos rfl]

theorem storeRecord_err_conf (s : CVState) (sender t d : Nat) (a : Bool) (c : Nat)
    (hd : d ≠ 0) (hc : 100 < c) :
    storeRecord s sender t d a c = .error .confidenceOutOfRange := by
  unfold storeRecord
  rw [if_neg hd, if_pos hc]

theorem storeRecord_err_dup (s : CVState) (sender t d : Nat) (a : Bool) (c : Nat)
    (hd : d ≠ 0) (hc : c ≤ 100) (hex : (s.records d).existsFlag = true) :
    storeRecord s sender t d a c = .error .recordAlreadyExists := by
  unfold storeRecord
  rw [if_neg hd, if_neg (by omega), if_pos (by simp [hex])]

theorem stepStore_of_error (s : CVState) (sender t d : Nat) (a : Bool) (c : Nat)
    (e : StoreError) (h : storeRecord s sender t d a c = .error e) :
    stepStore s sender t d a c = s := by
  unfold stepStore
  rw [h]

theorem storeRecord_ok_inv {s s2 : CVState} {sender t d : Nat} {a : Bool} {c : Nat}
    (h : storeRecord s sender t d a c = .ok s2) :
    d ≠ 0 ∧ c ≤ 100 ∧ (s.records d).existsFlag = false ∧
    s2.records = (fun d' => if d' = d then ⟨d, a, c, t, sender, true⟩ else s.records d') ∧
    s2.userRecords = (fun u => if u = sender then s.userRecords u ++ [d] else s.userRecords u) := by
  by_cases hd : d = 0
  · rw [storeRecord, if_pos hd] at h
    exact absurd h (by simp)
  by_cases hc : 100 < c
  · rw [storeRecord_err_conf s sender t d a c hd hc] at h
    exact absurd h (by simp)
  by_cases hex : (s.records d).existsFlag
  · rw [storeRecord_err_dup s sender t d a c hd (by omega) hex] at h
    exact absurd h (by simp)
  · rw [storeRecord_ok_of s sender t d a c hd (by omega) (by simpa using hex)] at h
    obtain rfl : _ = s2 := by simpa using h
    exact ⟨hd, by omega, by simpa using hex, rfl, rfl⟩

/-- An existing record is untouched by any call: reads cannot write, a
failing store rolls back, and a succeeding store targets a digest whose
record did not yet exist. -/
theorem records_mono (s : CVState) (op : Op) (d : Nat)
    (h : (s.records d).existsFlag = true) :
    (applyOp s op).records d = s.records d := by
  cases op with
  | store sender t d' a c =>
    show (stepStore s sender t d' a c).records d = s.records d
    unfold stepStore
    cases hc : storeRecord s sender t d' a c with
    | error e => rfl
    | ok s2 =>
      obtain ⟨_, _, hex, hr, _⟩ := storeRecord_ok_inv hc
      rw [hr]
      by_cases hdd : d = d'
      · subst hdd
        rw [h] at hex
        exact absurd hex (by simp)
      · simp [hdd]
  | readRecord _ => rfl
  | readUserRecords _ => rfl
  | readUserRecordCount _ => rfl
  | readRecordExists _ => rfl

theorem applyOp_userRecords (s : CVState) (op : Op) (u : Nat) :
    (applyOp s op).userRecords u =
      s.userRecords u ++ successDigestsOf u (opSuccess s op) := by
  cases op with
  | store sender t d a c =>
    show (stepStore s sender t d a c).userRecords u = _
    unfold stepStore opSuccess
    cases hc : storeRecord s sender t d a c with
    | error e => simp [successDigestsOf, hc]
    | ok s2 =>
      obtain ⟨_, _, _, _, hu⟩ := storeRecord_ok_inv hc
      rw [hu]
      by_cases hus : u = sender
      · subst hus
        simp [successDigestsOf, hc]
      · have hsu : sender ≠ u := fun h => hus h.symm
        simp [successDigestsOf, hc, hus, hsu]
  | readRecord _ => simp [applyOp, opSuccess, successDigestsOf]
  | readUserRecords _ => simp [applyOp, opSuccess, successDigestsOf]
  | readUserRecordCount _ => simp [applyOp, opSuccess, successDigestsOf]
  | readRecordExists _ => simp [applyOp, opSuccess, successDigestsOf]

theorem exec_userRecords (l : List Op) : ∀ (s : CVState) (u : Nat),
    (exec s l).userRecords u =
      s.userRecords u ++ successDigestsOf u (successes s l) := by
  induction l with
  | nil => intro s u; simp [exec, successes, successDigestsOf]
  | cons op rest ih =>
    intro s u
    rw [exec, successes, ih (applyOp s op) u, applyOp_userRecords s op u]
    simp [successDigestsOf, List.filterMap_append, List.append_assoc]

theorem exec_records_untouched (l : List Op) : ∀ (s : CVState) (d : Nat),
    (∀ p ∈ successes s l, p.2 ≠ d) → (exec s l).records d = s.records d := by
  induction l with
  | nil => intro s d _; rfl
  | cons op rest ih =>
    intro s d hnot
    rw [exec, ih (applyOp s op) d (fun p hp => hnot p (by
      rw [successes]; exact List.mem_append_right _ hp))]
    cases op with
    | store sender t d' a c =>
      show (stepStore s sender t d' a c).records d = s.records d
      unfold stepStore
      cases hc : storeRecord s sender t d' a c with
      | error e => rfl
      | ok s2 =>
        obtain ⟨_, _, _, hr, _⟩ := storeRecord_ok_inv hc
        rw [hr]
        have hdd : d ≠ d' := by
          intro he
          refine hnot (sender, d') ?_ he.symm
          rw [successes]
          refine List.mem_append_left _ ?_
          simp [opSuccess, hc]
        simp [hdd]
    | readRecord _ => rfl
    | readUserRecords _ => rfl
    | readUserRecordCount _ => rfl
    | readRecordExists _ => rfl

end ContentVerification

open ContentVerification in
/-- Claim C1: for every digest d ≠ 0 and confidence c with c ≤ 100 (c is a
`uint8`, hence nonnegative) such that no record exists for d,
`storeRecord(d, a, c)` succeeds, creating a record with verifier equal to
the caller identity and timestamp equal to the ledger time, appending d
to the caller's index, and a subsequent `getRecord(d)` returns a record
with `exists` true, `isAuthentic` a and `confidence` c. -/
theorem store_then_get_roundtrip (s : CVState) (sender t d : Nat) (a : Bool)
    (c : Nat) (hd : d ≠ 0) (hc : c ≤ 100)
    (hex : (s.records d).existsFlag = false) :
    ∃ s2, storeRecord s sender t d a c = .ok s2 ∧
      getRecord s2 d = ⟨d, a, c, t, sender, true⟩ ∧
      getUserRecords s2 sender = getUserRecords s sender ++ [d] := by
  refine ⟨_, storeRecord_ok_of s sender t d a c hd hc hex, ?_, ?_⟩
  · simp [getRecord]
  · simp [getUserRecords]

open ContentVerification in
/-- Witness for C1 at the spec scenario: store digest 1 with
`isAuthentic = true`, `confidence = 92` from sender 7 at time 100, then
look it up. -/
theorem store_then_get_roundtrip_witness :
    (1 : Nat) ≠ 0 ∧ (92 : Nat) ≤ 100 ∧
      (initState.records 1).existsFlag = false ∧
      ∃ s2, storeRecord initState 7 100 1 true 92 = .ok s2 ∧
        getRecord s2 1 = ⟨1, true, 92, 100, 7, true⟩ ∧
        getUserRecords s2 7 = getUserRecords initState 7 ++ [1] :=
  ⟨by decide, by decide, by decide,
   store_then_get_roundtrip initState 7 100 1 true 92 (by decide) (by decide)
     (by decide)⟩

open ContentVerification in
/-- Claim C2 counterexample: after a successful store of digest 1, a second
`storeRecord` for digest 1 with confidence 150 fails with the confidence
validation rejection, not with the duplicate rejection — the `require` on
the confidence runs before the duplicate check, so the duplicate failure
is not independent of the second call's confidence argument. -/
theorem second_store_conf_out_of_range_counterexample :
    storeRecord (stepStore initState 7 100 1 true 92) 8 101 1 false 150 =
      .error .confidenceOutOfRange ∧
    StoreError.confidenceOutOfRange ≠ StoreError.recordAlreadyExists :=
  ⟨rfl, by decide⟩

open ContentVerification in
/-- Claim C2 (amended): a record, once created, is never mutated or deleted
by any operation (at most one record per digest holds by construction:
`records` is keyed by digest), and after a successful `storeRecord` for
digest d every later `storeRecord` for d fails and leaves the storage
unchanged — with the duplicate rejection whenever the later call's
confidence is within range (independent of its `isAuthentic` argument),
and with the confidence validation rejection when its confidence exceeds
100. -/
theorem record_immutability_and_duplicate_rejection (s s2 : CVState)
    (sender t d : Nat) (a : Bool) (c : Nat)
    (hok : storeRecord s sender t d a c = .ok s2) :
    (∀ (s3 : CVState) (op : Op) (d' : Nat),
       (s3.records d').existsFlag = true →
       (applyOp s3 op).records d' = s3.records d') ∧
    (∀ (sender' t' : Nat) (a' : Bool) (c' : Nat),
       (c' ≤ 100 →
         storeRecord s2 sender' t' d a' c' = .error .recordAlreadyExists) ∧
       (100 < c' →
         storeRecord s2 sender' t' d a' c' = .error .confidenceOutOfRange) ∧
       stepStore s2 sender' t' d a' c' = s2) := by
  obtain ⟨hd, hc, hex, hr, hu⟩ := storeRecord_ok_inv hok
  have hex2 : (s2.records d).existsFlag = true := by
    rw [hr]; simp
  refine ⟨fun s3 op d' h => records_mono s3 op d' h, fun sender' t' a' c' => ?_⟩
  refine ⟨fun hc' => storeRecord_err_dup s2 sender' t' d a' c' hd hc' hex2,
    fun hc' => storeRecord_err_conf s2 sender' t' d a' c' hd hc', ?_⟩
  by_cases hc' : c' ≤ 100
  · exact stepStore_of_error s2 sender' t' d a' c' _
      (storeRecord_err_dup s2 sender' t' d a' c' hd hc' hex2)
  · exact stepStore_of_error s2 sender' t' d a' c' _
      (storeRecord_err_conf s2 sender' t' d a' c' hd (by omega))

open ContentVerification in
/-- Witness for the amended C2: store digest 1, then retry it with an
in-range confidence. -/
theorem record_immutability_and_duplicate_rejection_witness :
    storeRecord initState 7 100 1 true 92 = .ok (stepStore initState 7 100 1 true 92) ∧
    ((∀ (s3 : CVState) (op : Op) (d' : Nat),
        (s3.records d').existsFlag = true →
        (applyOp s3 op).records d' = s3.records d') ∧
     (∀ (sender' t' : Nat) (a' : Bool) (c' : Nat),
        (c' ≤ 100 →
          storeRecord (stepStore initState 7 100 1 true 92) sender' t' 1 a' c' =
            .error .recordAlreadyExists) ∧
        (100 < c' →
          storeRecord (stepStore initState 7 100 1 true 92) sender' t' 1 a' c' =
            .error .confidenceOutOfRange) ∧
        stepStore (stepStore initState 7 100 1 true 92) sender' t' 1 a' c' =
          stepStore initState 7 100 1 true 92)) :=
  ⟨rfl,
   record_immutability_and_duplicate_rejection initState
     (stepStore initState 7 100 1 true 92) 7 100 1 true 92 rfl⟩

open ContentVerification in
/-- Claim C3: `storeRecord` fails with no state change whenever the digest
is zero, the confidence is above 100 (a `uint8` cannot be below 0), or a
record for the digest already exists; the failing call modifies neither
mapping, and after a failed store with out-of-range confidence on a
never-stored digest the digest still reports as not existing. -/
theorem storeRecord_failure_leaves_state_unchanged (s : CVState)
    (sender t d : Nat) (a : Bool) (c : Nat)
    (h : d = 0 ∨ 100 < c ∨ (s.records d).existsFlag = true) :
    (∃ e, storeRecord s sender t d a c = .error e) ∧
    stepStore s sender t d a c = s ∧
    (100 < c → (s.records d).existsFlag = false →
      recordExists (stepStore s sender t d a c) d = false) := by
  have herr : ∃ e, storeRecord s sender t d a c = .error e := by
    by_cases hd : d = 0
    · exact ⟨_, hd ▸ storeRecord_err_empty s sender t a c⟩
    by_cases hc : 100 < c
    · exact ⟨_, storeRecord_err_conf s sender t d a c hd hc⟩
    · rcases h with h | h | h
      · exact absurd h hd
      · exact absurd h hc
      · exact ⟨_, storeRecord_err_dup s sender t d a c hd (by omega) h⟩
  obtain ⟨e, he⟩ := herr
  have hstep : stepStore s sender t d a c = s :=
    stepStore_of_error s sender t d a c e he
  exact ⟨⟨e, he⟩, hstep, fun _ hex => by rw [hstep]; exact hex⟩

open ContentVerification in
/-- Witness for C3: a store with confidence 150 on the never-stored digest
1 of a fresh contract fails, changes nothing, and the digest still
reports as not existing. -/
theorem storeRecord_failure_leaves_state_unchanged_witness :
    ((1 : Nat) = 0 ∨ 100 < 150 ∨ (initState.records 1).existsFlag = true) ∧
    ((∃ e, storeRecord initState 9 50 1 true 150 = .error e) ∧
     stepStore initState 9 50 1 true 150 = initState ∧
     (100 < 150 → (initState.records 1).existsFlag = false →
       recordExists (stepStore initState 9 50 1 true 150) 1 = false)) :=
  ⟨Or.inr (Or.inl (by decide)),
   storeRecord_failure_leaves_state_unchanged initState 9 50 1 true 150
     (Or.inr (Or.inl (by decide)))⟩

open ContentVerification in
/-- Claim C4: `getRecord` is a pure read (view calls leave the storage
unchanged), and for every digest for which no `storeRecord` call of the
trace succeeded it returns the default record: zero digest, false
`isAuthentic`, zero confidence, zero timestamp, zero verifier, `exists`
false. -/
theorem getRecord_never_stored_default :
    (∀ (s : CVState) (d : Nat), applyOp s (Op.readRecord d) = s) ∧
    (∀ (l : List Op) (d : Nat),
       d ∉ (successes initState l).map Prod.snd →
       getRecord (exec initState l) d = defaultRecord) := by
  refine ⟨fun s d => rfl, fun l d h => ?_⟩
  have := exec_records_untouched l initState d (fun p hp hpd => by
    exact h (hpd ▸ List.mem_map_of_mem Prod.snd hp))
  rw [getRecord, this]
  rfl

open ContentVerification in
/-- Witness for C4: a trace with one successful store (digest 1) and one
failing store (digest 2, confidence 101); digest 3 was never stored and
reads back as the default record. -/
theorem getRecord_never_stored_default_witness :
    (3 ∉ (successes initState
        [Op.store 5 10 1 true 92, Op.store 5 11 2 true 101]).map Prod.snd) ∧
    getRecord (exec initState
        [Op.store 5 10 1 true 92, Op.store 5 11 2 true 101]) 3 = defaultRecord :=
  ⟨by decide,
   getRecord_never_stored_default.2
     [Op.store 5 10 1 true 92, Op.store 5 11 2 true 101] 3 (by decide)⟩

open ContentVerification in
/-- Claim C5: for every identity and every trace of calls,
`getUserRecordCount` equals the number of that identity's successful
`storeRecord` calls and `getUserRecords` lists exactly the digests of
those calls in call order; moreover the per-identity index is
append-only: every single call extends it on the right. -/
theorem userRecordIndex_matches_successful_stores :
    (∀ (l : List Op) (u : Nat),
       getUserRecords (exec initState l) u =
         successDigestsOf u (successes initState l) ∧
       getUserRecordCount (exec initState l) u =
         (successDigestsOf u (successes initState l)).length) ∧
    (∀ (s : CVState) (op : Op) (u : Nat),
       ∃ tail, getUserRecords (applyOp s op) u = getUserRecords s u ++ tail) := by
  constructor
  · intro l u
    have h := exec_userRecords l initState u
    have h0 : initState.userRecords u = [] := rfl
    rw [h0, List.nil_append] at h
    exact ⟨h, by rw [getUserRecordCount, h]⟩
  · intro s op u
    exact ⟨successDigestsOf u (opSuccess s op), applyOp_userRecords s op u⟩

namespace BlockchainService

theorem jsRound_eq_of (q : ℚ) (n : ℤ) (h1 : (n : ℚ) ≤ q + 1/2)
    (h2 : q + 1/2 < n + 1) : jsRound q = n :=
  Int.floor_eq_iff.mpr ⟨h1, h2⟩

theorem jsRound_nonneg (q : ℚ) (h : 0 ≤ q) : 0 ≤ jsRound q :=
  Int.floor_nonneg.mpr (by linarith)

theorem jsRound_le_100 (q : ℚ) (h : q ≤ 100) : jsRound q ≤ 100 := by
  calc ⌊q + 1/2⌋ ≤ ⌊(201/2 : ℚ)⌋ := Int.floor_le_floor (by linarith)
    _ = 100 := by
        rw [Int.floor_eq_iff]
        norm_num

theorem jsRound_near (q : ℚ) : |q - (jsRound q : ℚ)| ≤ 1/2 := by
  rw [abs_le]
  have h1 : (jsRound q : ℚ) ≤ q + 1/2 := Int.floor_le (q + 1/2)
  have h2 : q + 1/2 < (jsRound q : ℚ) + 1 := Int.lt_floor_add_one (q + 1/2)
  constructor <;> linarith

end BlockchainService

open BlockchainService in
/-- Claim C6: `connectWallet` fails with the wallet-unavailable error when
no external signing provider is present, fails with the no-accounts error
when the provider yields null or an empty account list, and on success
transitions to connected, capturing the first account and the chain
identifier and leaving `isConnected` true. -/
theorem connectWallet_errors_and_success (env : BrowserEnv) (s : BCState) :
    (env.ethereum = none →
       connectWallet env s = .error .metamaskNotInstalled) ∧
    (∀ eth, env.ethereum = some eth →
       eth.accountsResult = none ∨ eth.accountsResult = some [] →
       connectWallet env s = .error .noAccountsFound) ∧
    (∀ eth account rest, env.ethereum = some eth →
       eth.accountsResult = some (account :: rest) →
       ∃ s2, connectWallet env s = .ok s2 ∧ s2.isConnected = true ∧
         s2.currentAccount = some account ∧
         s2.currentNetwork = some ⟨eth.chainId, eth.networkName⟩ ∧
         s2.signerPresent = true ∧ s2.provider = some ⟨eth.gasPrice⟩) := by
  refine ⟨fun h => by simp [connectWallet, h], fun eth h1 h2 => ?_, ?_⟩
  · rcases h2 with h2 | h2 <;> simp [connectWallet, h1, h2]
  · intro eth account rest h1 h2
    refine ⟨{ s with
        provider := some ⟨eth.gasPrice⟩,
        signerPresent := true,
        currentAccount := some account,
        currentNetwork := some ⟨eth.chainId, eth.networkName⟩,
        isConnected := true }, ?_, rfl, rfl, rfl, rfl, rfl⟩
    simp [connectWallet, h1, h2]

open BlockchainService in
/-- Witness for C6: no provider; a provider with zero accounts; a
provider with one account. -/
theorem connectWallet_errors_and_success_witness :
    connectWallet ⟨none⟩ initBCState = .error .metamaskNotInstalled ∧
    connectWallet ⟨some ⟨some [], 11155111, "sepolia", 30⟩⟩ initBCState =
      .error .noAccountsFound ∧
    ∃ s2, connectWallet ⟨some ⟨some ["0xme"], 11155111, "sepolia", 30⟩⟩
        initBCState = .ok s2 ∧ s2.isConnected = true ∧
      s2.currentAccount = some "0xme" ∧
      s2.currentNetwork = some ⟨11155111, "sepolia"⟩ ∧
      s2.signerPresent = true ∧ s2.provider = some ⟨30⟩ := by
  refine ⟨(connectWallet_errors_and_success ⟨none⟩ initBCState).1 rfl,
    (connectWallet_errors_and_success _ initBCState).2.1 _ rfl (Or.inr rfl), ?_⟩
  obtain ⟨s2, h⟩ :=
    (connectWallet_errors_and_success
      ⟨some ⟨some ["0xme"], 11155111, "sepolia", 30⟩⟩ initBCState).2.2
      _ "0xme" [] rfl rfl
  exact ⟨s2, h⟩

open BlockchainService in
/-- Claim C7: when no binding exists — as after construction or after a
disconnect — both `storeVerificationRecord` and `estimateGasCost` fail
with the missing-binding error with an empty external-call log: zero
ledger or provider interactions occur on the failing call. -/
theorem unbound_submit_and_estimate_fail_locally :
    initBCState.contract = none ∧
    (∀ s : BCState, (disconnectWallet s).contract = none) ∧
    (∀ (s : BCState) (h : String) (a : Bool) (c : ℚ), s.contract = none →
       storeVerificationRecord s h a c = (.error .contractNotInitialized, []) ∧
       estimateGasCost s h a c = (.error .contractNotInitialized, [])) := by
  refine ⟨rfl, fun s => rfl, fun s h a c hc => ?_⟩
  constructor
  · simp [storeVerificationRecord, hc]
  · simp [estimateGasCost, hc]

open BlockchainService in
/-- Witness for C7: the freshly constructed service rejects both calls
with no external call made. -/
theorem unbound_submit_and_estimate_fail_locally_witness :
    initBCState.contract = none ∧
    storeVerificationRecord initBCState "0xdeadbeef" true 90 =
      (.error .contractNotInitialized, []) ∧
    estimateGasCost initBCState "0xdeadbeef" true 90 =
      (.error .contractNotInitialized, []) :=
  ⟨rfl,
   (unbound_submit_and_estimate_fail_locally.2.2 initBCState "0xdeadbeef"
     true 90 rfl).1,
   (unbound_submit_and_estimate_fail_locally.2.2 initBCState "0xdeadbeef"
     true 90 rfl).2⟩

open BlockchainService in
/-- Claim C8 counterexample: with a contract bound, submitting the
all-zero digest is not rejected locally: the call succeeds client-side
and the bound contract is invoked with the zero digest — the
external-call log is nonempty, so a network round-trip does happen. -/
theorem zero_digest_submitted_to_contract_counterexample :
    (storeVerificationRecord boundState zeroHash32 true 90).2 =
      [.contractStoreRecord zeroHash32 true (jsRound 90)] ∧
    (storeVerificationRecord boundState zeroHash32 true 90).1 =
      .ok ⟨"0xsampletransaction", 123, 50000, "0xsamplesender", zeroHash32⟩ :=
  ⟨rfl, rfl⟩

open BlockchainService in
/-- Claim C8 (amended): `storeVerificationRecord` performs no local
empty/zero-digest validation; every digest — the empty and the all-zero
one included — is forwarded, prefixed with 0x when the prefix is
missing, in exactly one call to the bound contract, and the zero-digest
rejection exists only ledger-side, in the contract's own `storeRecord`
check. -/
theorem submit_has_no_local_digest_check (s : BCState) (k : ContractOracle)
    (h : String) (a : Bool) (c : ℚ) (hk : s.contract = some k) :
    (storeVerificationRecord s h a c).2 =
      [.contractStoreRecord (normalizeHash h) a (jsRound c)] ∧
    (∀ (st : ContentVerification.CVState) (sender t : Nat) (ia : Bool)
       (conf : Nat),
       ContentVerification.storeRecord st sender t 0 ia conf =
         .error .emptyContentHash) := by
  constructor
  · cases hr : k.storeRecordResp (normalizeHash h) a (jsRound c) <;>
      simp [storeVerificationRecord, hk, hr]
  · intro st sender t ia conf
    exact ContentVerification.storeRecord_err_empty st sender t ia conf

open BlockchainService in
/-- Witness for the amended C8: the empty digest is forwarded to the
bound contract as the two-character string 0x. -/
theorem submit_has_no_local_digest_check_witness :
    boundState.contract = some sampleOracle ∧
    ((storeVerificationRecord boundState "" true 90).2 =
       [.contractStoreRecord (normalizeHash "") true (jsRound 90)] ∧
     (∀ (st : ContentVerification.CVState) (sender t : Nat) (ia : Bool)
        (conf : Nat),
        ContentVerification.storeRecord st sender t 0 ia conf =
          .error .emptyContentHash)) :=
  ⟨rfl, submit_has_no_local_digest_check boundState sampleOracle "" true 90 rfl⟩

open BlockchainService in
/-- Claim C9 counterexample: explicitly seeding a record through the
enableMock options does not make its digest report as existing — the
lookup still answers null, because the mock contract's `getRecord`
ignores the seeded records. -/
theorem mock_seeded_lookup_still_absent_counterexample :
    (getVerificationRecord (enableMockMode initBCState seededOptions)
        seededDigest).1 = .ok none ∧
    seededOptions.seededRecords = [(seededDigest, seededRecord)] ∧
    seededRecord.existsFlag = true :=
  ⟨rfl, rfl, rfl⟩

open BlockchainService in
/-- Claim C9 (amended): after enableMock the lookup reports non-existence
for every digest, unconditionally: regardless of prior simulated stores
(which mutate no state) and regardless of any records seeded through the
enableMock options — the installed mock contract answers every
`getRecord` with the default record whose `exists` field is false. -/
theorem mock_lookup_always_reports_absent (s : BCState) (opts : MockOptions)
    (h : String) :
    (getVerificationRecord (enableMockMode s opts) h).1 = .ok none ∧
    ((mockContract (opts.account.getD defaultMockAccount)).getRecordResp
        (normalizeHash h)).existsFlag = false := by
  exact ⟨rfl, rfl⟩

open BlockchainService in
open UploadForm in
/-- Claim C10: for every confidence value c handed to
`storeVerificationRecord` or `estimateGasCost`, the value sent to the
ledger is `jsRound c`, the nearest integer (within 1/2 of c); fractional
percentages produced by scaling the classification oracle's 0..1
confidence by 100 are rounded rather than rejected, and whenever
0 ≤ c ≤ 100 the submitted integer stays within [0, 100]. -/
theorem confidence_rounded_to_nearest_integer (s : BCState)
    (k : ContractOracle) (h : String) (a : Bool) (c : ℚ)
    (hk : s.contract = some k) :
    (storeVerificationRecord s h a c).2 =
      [.contractStoreRecord (normalizeHash h) a (jsRound c)] ∧
    (∃ rest, (estimateGasCost s h a c).2 =
      .contractEstimateGas (normalizeHash h) a (jsRound c) :: rest) ∧
    |c - (jsRound c : ℚ)| ≤ 1/2 ∧
    (0 ≤ c → c ≤ 100 → 0 ≤ jsRound c ∧ jsRound c ≤ 100) ∧
    (∀ oracleConfidence : ℚ, 0 ≤ oracleConfidence → oracleConfidence ≤ 1 →
       0 ≤ jsRound (uiConfidencePercent oracleConfidence) ∧
       jsRound (uiConfidencePercent oracleConfidence) ≤ 100) := by
  refine ⟨?_, ?_, jsRound_near c,
    fun h0 h1 => ⟨jsRound_nonneg c h0, jsRound_le_100 c h1⟩,
    fun o h0 h1 => ⟨jsRound_nonneg _ (by unfold uiConfidencePercent; positivity),
      jsRound_le_100 _ (by unfold uiConfidencePercent; linarith)⟩⟩
  · cases hr : k.storeRecordResp (normalizeHash h) a (jsRound c) <;>
      simp [storeVerificationRecord, hk, hr]
  · cases hr : k.estimateGasResp (normalizeHash h) a (jsRound c) with
    | error msg => exact ⟨[], by simp [estimateGasCost, hk, hr]⟩
    | ok gas =>
      cases hp : s.provider with
      | none => exact ⟨[], by simp [estimateGasCost, hk, hr, hp]⟩
      | some p =>
        exact ⟨[.providerGetFeeData], by simp [estimateGasCost, hk, hr, hp]⟩

open BlockchainService in
open UploadForm in
/-- Witness for C10 at confidence 92.5 (the UI scaling of an oracle
confidence of 0.925): the contract receives `jsRound (925/10)`, which
is 93. -/
theorem confidence_rounded_to_nearest_integer_witness :
    boundState.contract = some sampleOracle ∧
    ((storeVerificationRecord boundState "0xdeadbeef" true (925/10)).2 =
       [.contractStoreRecord (normalizeHash "0xdeadbeef") true
         (jsRound (925/10))] ∧
     (∃ rest, (estimateGasCost boundState "0xdeadbeef" true (925/10)).2 =
       .contractEstimateGas (normalizeHash "0xdeadbeef") true
         (jsRound (925/10)) :: rest) ∧
     |(925/10 : ℚ) - (jsRound (925/10) : ℚ)| ≤ 1/2 ∧
     (0 ≤ (925/10 : ℚ) → (925/10 : ℚ) ≤ 100 →
       0 ≤ jsRound (925/10) ∧ jsRound (925/10) ≤ 100) ∧
     (∀ oracleConfidence : ℚ, 0 ≤ oracleConfidence → oracleConfidence ≤ 1 →
        0 ≤ jsRound (uiConfidencePercent oracleConfidence) ∧
        jsRound (uiConfidencePercent oracleConfidence) ≤ 100)) ∧
    jsRound (925/10) = 93 :=
  ⟨rfl,
   confidence_rounded_to_nearest_integer boundState sampleOracle "0xdeadbeef"
     true (925/10) rfl,
   jsRound_eq_of (925/10) 93 (by norm_num) (by norm_num)⟩
